import Mathlib

/-!
# Chapter 1 exercises: `test` (exercise_1.cpp) and the divisibility loops (exercise_2.cpp)

Shallow embedding of the two programs of `src/exercises_activities_chapter_1`.

* `int` values are integers in `[INT_MIN, INT_MAX]`; the increment `i++` of the loop
  counter is checked and faults on signed overflow.
* `unsigned int` values are naturals below `UINT_MOD`, with arithmetic modulo `UINT_MOD`.
* `std::cout << ... << std::endl` appends one line to the list of output lines.
* a `for` loop is run with fuel; running out of fuel is a fault of its own.
-/

namespace Chapter1

/-! ## Machine integers -/

/-- Largest value of a 32-bit `int`. -/
def INT_MAX : Int := 2147483647

/-- Smallest value of a 32-bit `int`. -/
def INT_MIN : Int := -2147483648

/-- Number of values of a 32-bit `unsigned int`. -/
def UINT_MOD : Nat := 4294967296

/-- Values representable in a 32-bit `int`. -/
def isInt (a : Int) : Prop := INT_MIN ≤ a ∧ a ≤ INT_MAX

instance (a : Int) : Decidable (isInt a) := by
  unfold isInt; infer_instance

/-- The `count++` of an `unsigned int`. -/
def uincr (c : Nat) : Nat := (c + 1) % UINT_MOD

/-- The subtraction `a - c` carried out in `unsigned int`, as in `30 - count`. -/
def usub (a c : Nat) : Nat := (a + UINT_MOD - c) % UINT_MOD

/-! ## exercise_1.cpp -/

/-- The function `constexpr int test(int a, int b)`. -/
def test (a b : Int) : Int :=
  if a < b then a else b

/-- What `main` of exercise_1.cpp leaves behind: exit status, output lines, and the two
locals `u` and `v`. -/
structure Exercise1Result where
  status : Int
  out : List String
  u : Int
  v : Int
  deriving DecidableEq, Repr

/-- The `main` of exercise_1.cpp. -/
def exercise_1_main : Exercise1Result :=
  let out := ["Hello Universe"]
  let x : Int := 1
  let y : Int := 2
  let a : Int := 1
  let b : Int := 4
  let u := test x y
  let v := test a b
  { status := 0, out := out, u := u, v := v }

/-! ## exercise_2.cpp -/

/-- Ways in which a run of the model stops without a result. -/
inductive Fault where
  | signedOverflow
  | divisionByZero
  | outOfFuel
  deriving DecidableEq, Repr

/-- The variables of `main` in exercise_2.cpp that outlive a loop: the `unsigned int count`
and the lines written to `std::cout` so far. -/
structure State where
  count : Nat
  out : List String
  deriving DecidableEq, Repr

/-- One `std::cout << line << std::endl`. -/
def emit (line : String) (s : State) : State :=
  { s with out := s.out ++ [line] }

/-- The line `i << " is divisible by d"`. -/
def matchLine (d i : Int) : String :=
  toString i ++ " is divisible by " ++ toString d

/-- The header line printed before a pass. -/
def headerLine (low high d : Int) : String :=
  "All numbers divisble by " ++ toString d ++ " within the interval [" ++ toString low ++ ","
    ++ toString high ++ "]"

/-- The summary line `"At the end we have " << count << " numbers divisible by d"`. -/
def summaryLine (d : Int) (count : Nat) : String :=
  "At the end we have " ++ toString count ++ " numbers divisible by " ++ toString d

/-- The last line, `"And obviously we have " << 30 - count << ...`. -/
def finalLine (count : Nat) : String :=
  "And obviously we have " ++ toString (usub 30 count) ++ " numbers not divisible by 3 within [1,30]"

/-- The body of the loop: `if (i % d == 0) { std::cout << ...; count++; }`.
The `%` of C++ truncates towards zero and has no value for a zero divisor. -/
def loopBody (d i : Int) (s : State) : Except Fault State :=
  if d = 0 then .error .divisionByZero
  else if i.tmod d = 0 then
    .ok { count := uincr s.count, out := s.out ++ [matchLine d i] }
  else .ok s

/-- The loop `for (...; i <= high; i++) body`, entered with counter `i`.  The result carries
the state at exit together with the number of times the body ran. -/
def forLoop (high d : Int) : Nat → Int → State → Except Fault (State × Nat)
  | 0, _, _ => .error .outOfFuel
  | fuel + 1, i, s =>
    if i ≤ high then
      match loopBody d i s with
      | .error e => .error e
      | .ok s' =>
        if i < INT_MAX then
          match forLoop high d fuel (i + 1) s' with
          | .ok r => .ok (r.1, r.2 + 1)
          | .error e => .error e
        else .error .signedOverflow
    else .ok (s, 0)

/-- One reporting pass: `count = 0; for (int i = low; i <= high; i++) body`. -/
def reportingPass (low high d : Int) (fuel : Nat) (s : State) : Except Fault (State × Nat) :=
  forLoop high d fuel low { s with count := 0 }

/-- The state of exercise_2.cpp after the first loop (lines 5 to 16). -/
def afterPass1 (fuel : Nat) : Except Fault (State × Nat) :=
  reportingPass 1 30 3 fuel (emit (headerLine 1 30 3) { count := 0, out := [] })

/-- The state of exercise_2.cpp after the second loop (lines 5 to 30). -/
def afterPass2 (fuel : Nat) : Except Fault (State × Nat) :=
  match afterPass1 fuel with
  | .ok r => reportingPass 1 100 11 fuel (emit (headerLine 1 100 11) (emit (summaryLine 3 r.1.count) r.1))
  | .error e => .error e

/-- The `main` of exercise_2.cpp: exit status and output lines. -/
def exercise_2_main (fuel : Nat) : Except Fault (Int × List String) :=
  match afterPass2 fuel with
  | .ok r =>
    let s := emit (summaryLine 11 r.1.count) r.1
    let s := emit (finalLine s.count) s
    .ok (0, s.out)
  | .error e => .error e

/-! ## Lists used in statements and proofs -/

/-- The `n` consecutive integers starting at `i`. -/
def upFrom (i : Int) : Nat → List Int
  | 0 => []
  | n + 1 => i :: upFrom (i + 1) n

/-- The integers among the `n` consecutive ones from `i` that `d` divides, in the sense of
the test `j % d == 0`. -/
def matchesFrom (d i : Int) (n : Nat) : List Int :=
  (upFrom i n).filter (fun j => j.tmod d = 0)

/-- The lines exercise_2.cpp has written when its first loop is left. -/
def linesAfterPass1 : List String :=
  ["All numbers divisble by 3 within the interval [1,30]",
   "3 is divisible by 3", "6 is divisible by 3", "9 is divisible by 3", "12 is divisible by 3",
   "15 is divisible by 3", "18 is divisible by 3", "21 is divisible by 3",
   "24 is divisible by 3", "27 is divisible by 3", "30 is divisible by 3"]

/-- The lines exercise_2.cpp has written when its second loop is left. -/
def linesAfterPass2 : List String :=
  linesAfterPass1 ++
  ["At the end we have 10 numbers divisible by 3",
   "All numbers divisble by 11 within the interval [1,100]",
   "11 is divisible by 11", "22 is divisible by 11", "33 is divisible by 11",
   "44 is divisible by 11", "55 is divisible by 11", "66 is divisible by 11",
   "77 is divisible by 11", "88 is divisible by 11", "99 is divisible by 11"]

/-- All the lines exercise_2.cpp writes. -/
def linesOfMain : List String :=
  linesAfterPass2 ++
  ["At the end we have 9 numbers divisible by 11",
   "And obviously we have 21 numbers not divisible by 3 within [1,30]"]

/-! ## Lemmas on the loop -/

theorem mem_upFrom (n : Nat) : ∀ (i j : Int), j ∈ upFrom i n ↔ i ≤ j ∧ j < i + n := by
  induction n with
  | zero => intro i j; simp [upFrom]
  | succ n ih =>
    intro i j
    simp only [upFrom, List.mem_cons, ih]
    push_cast
    omega

theorem upFrom_pairwise (n : Nat) : ∀ i : Int, (upFrom i n).Pairwise (· < ·) := by
  induction n with
  | zero => intro i; simp [upFrom]
  | succ n ih =>
    intro i
    simp only [upFrom, List.pairwise_cons]
    refine ⟨?_, ih (i + 1)⟩
    intro j hj
    have := (mem_upFrom n (i + 1) j).1 hj
    omega

theorem length_upFrom (n : Nat) : ∀ i : Int, (upFrom i n).length = n := by
  induction n with
  | zero => intro i; rfl
  | succ n ih => intro i; simp [upFrom, ih]

theorem matchesFrom_length_le (d i : Int) (n : Nat) : (matchesFrom d i n).length ≤ n := by
  unfold matchesFrom
  calc ((upFrom i n).filter _).length ≤ (upFrom i n).length := List.length_filter_le _ _
    _ = n := length_upFrom n i

theorem matchesFrom_succ (d i : Int) (n : Nat) :
    matchesFrom d i (n + 1) =
      if i.tmod d = 0 then i :: matchesFrom d (i + 1) n else matchesFrom d (i + 1) n := by
  unfold matchesFrom
  by_cases h : i.tmod d = 0 <;> simp [upFrom, List.filter_cons, h]

/-- Leaving the loop: once the counter is past `high` the loop stops at once. -/
theorem forLoop_exit (high d : Int) (fuel : Nat) (i : Int) (s : State) (h : high < i) :
    forLoop high d (fuel + 1) i s = .ok (s, 0) := by
  simp [forLoop, not_le.mpr h]

/-- Running the loop for `n` more rounds, up to `high`. -/
theorem forLoop_run (high d : Int) (hd : d ≠ 0) (hhigh : high < INT_MAX) (n : Nat) :
    ∀ (i : Int) (s : State) (k : Nat), i + n = high + 1 →
      s.count + (matchesFrom d i n).length < UINT_MOD →
      forLoop high d (n + 1 + k) i s =
        .ok (⟨s.count + (matchesFrom d i n).length,
              s.out ++ (matchesFrom d i n).map (matchLine d)⟩, n) := by
  induction n with
  | zero =>
    intro i s k hi _
    have : high < i := by omega
    rw [show 0 + 1 + k = k + 1 by omega, forLoop_exit high d k i s this]
    simp [matchesFrom, upFrom]
  | succ n ih =>
    intro i s k hi hc
    have h1 : i ≤ high := by push_cast at hi; omega
    have h2 : i < INT_MAX := by omega
    rw [show n + 1 + 1 + k = (n + 1 + k) + 1 by omega]
    rw [matchesFrom_succ] at hc ⊢
    by_cases hm : i.tmod d = 0
    · simp only [hm, if_true, List.length_cons] at hc ⊢
      have hu : uincr s.count = s.count + 1 := by
        unfold uincr; exact Nat.mod_eq_of_lt (by omega)
      simp only [forLoop, h1, if_true, loopBody, hd, if_false, hm, h2]
      rw [ih (i + 1) _ k (by push_cast at hi; omega) (by simp only [hu]; omega)]
      simp [hu, Nat.add_assoc, Nat.add_comm 1]
    · simp only [hm, if_false] at hc ⊢
      simp only [forLoop, h1, if_true, loopBody, hd, if_false, hm, h2]
      rw [ih (i + 1) s k (by push_cast at hi; omega) hc]

/-- A loop that stops within its fuel stops in the same way with more fuel. -/
theorem forLoop_fuel_mono (high d : Int) (fuel : Nat) :
    ∀ (i : Int) (s : State) (r : State × Nat), forLoop high d fuel i s = .ok r →
      ∀ k, forLoop high d (fuel + k) i s = .ok r := by
  induction fuel with
  | zero => intro i s r h; simp [forLoop] at h
  | succ fuel ih =>
    intro i s r h k
    rw [show fuel + 1 + k = (fuel + k) + 1 by omega]
    simp only [forLoop] at h ⊢
    by_cases h1 : i ≤ high
    · simp only [h1, if_true] at h ⊢
      cases hb : loopBody d i s with
      | error e => simp [hb] at h
      | ok s' =>
        simp only [hb] at h ⊢
        by_cases h2 : i < INT_MAX
        · simp only [h2, if_true] at h ⊢
          cases hr : forLoop high d fuel (i + 1) s' with
          | error e => simp [hr] at h
          | ok r' =>
            rw [ih (i + 1) s' r' hr k]
            simpa [hr] using h
        · simp [h2] at h
    · simpa [h1] using h

/-- A reporting pass over `[low, high]` with enough fuel: the matches are reported in order,
the count is their number, and the body runs once for every integer of the range. -/
theorem reportingPass_run (low high d : Int) (s : State) (hd : d ≠ 0)
    (hlow : INT_MIN ≤ low) (hhigh : high < INT_MAX) (k : Nat) :
    reportingPass low high d ((high + 1 - low).toNat + 1 + k) s =
      .ok (⟨(matchesFrom d low (high + 1 - low).toNat).length,
            s.out ++ (matchesFrom d low (high + 1 - low).toNat).map (matchLine d)⟩,
           (high + 1 - low).toNat) := by
  unfold reportingPass
  by_cases h : low ≤ high + 1
  · have hlen := matchesFrom_length_le d low (high + 1 - low).toNat
    have hN : ((high + 1 - low).toNat : Int) = high + 1 - low := Int.toNat_of_nonneg (by omega)
    have := forLoop_run high d hd hhigh (high + 1 - low).toNat low { s with count := 0 } k
      (by omega) (by simp only [UINT_MOD]; unfold INT_MIN at hlow; unfold INT_MAX at hhigh; omega)
    simpa using this
  · have hN : (high + 1 - low).toNat = 0 := Int.toNat_eq_zero.mpr (by omega)
    rw [hN, show 0 + 1 + k = k + 1 by omega, forLoop_exit high d k low _ (by omega)]
    simp [matchesFrom, upFrom]

/-! ## The two hardcoded passes -/

set_option maxRecDepth 100000 in
/-- The first loop, given 31 units of fuel or more. -/
theorem afterPass1_run (k : Nat) :
    afterPass1 (31 + k) = .ok (⟨10, linesAfterPass1⟩, 30) := by
  have h := reportingPass_run 1 30 3 (emit (headerLine 1 30 3) { count := 0, out := [] })
    (by decide) (by decide) (by decide) k
  exact h

set_option maxRecDepth 100000 in
/-- The second loop, given 101 units of fuel or more. -/
theorem afterPass2_run (k : Nat) :
    afterPass2 (101 + k) = .ok (⟨9, linesAfterPass2⟩, 100) := by
  unfold afterPass2
  rw [show 101 + k = 31 + (70 + k) by omega, afterPass1_run (70 + k)]
  have h := reportingPass_run 1 100 11
    (emit (headerLine 1 100 11) (emit (summaryLine 3 10) ⟨10, linesAfterPass1⟩))
    (by decide) (by decide) (by decide) k
  rw [show 31 + (70 + k) = 101 + k by omega]
  exact h

set_option maxRecDepth 100000 in
/-- The whole of `main`, given 101 units of fuel or more. -/
theorem exercise_2_main_run (k : Nat) :
    exercise_2_main (101 + k) = .ok (0, linesOfMain) := by
  unfold exercise_2_main
  rw [afterPass2_run k]
  rfl

/-- More fuel does not change what `main` of exercise_2.cpp returns. -/
theorem exercise_2_main_fuel_mono (fuel : Nat) (r : Int × List String)
    (h : exercise_2_main fuel = .ok r) (k : Nat) : exercise_2_main (fuel + k) = .ok r := by
  unfold exercise_2_main afterPass2 afterPass1 reportingPass at h ⊢
  cases h1 : forLoop 30 3 fuel 1
      { (emit (headerLine 1 30 3) { count := 0, out := [] }) with count := 0 } with
  | error e => simp [h1] at h
  | ok r1 =>
    rw [forLoop_fuel_mono 30 3 fuel _ _ r1 h1 k]
    simp only [h1] at h ⊢
    cases h2 : forLoop 100 11 fuel 1
        { (emit (headerLine 1 100 11) (emit (summaryLine 3 r1.1.count) r1.1)) with count := 0 } with
    | error e => simp [h2] at h
    | ok r2 =>
      rw [forLoop_fuel_mono 100 11 fuel _ _ r2 h2 k]
      simpa [h2] using h

/-- Whatever the fuel, a run of `main` of exercise_2.cpp that returns, returns status 0 and
the lines `linesOfMain`. -/
theorem exercise_2_main_result (fuel : Nat) (r : Int × List String)
    (h : exercise_2_main fuel = .ok r) : r = (0, linesOfMain) := by
  have h1 := exercise_2_main_fuel_mono fuel r h 101
  rw [Nat.add_comm, exercise_2_main_run fuel] at h1
  exact (Except.ok.inj h1).symm

/-! ## Counting the multiples in `[1, n]` -/

/-- The last of `n + 1` consecutive integers split off. -/
theorem upFrom_succ_last (n : Nat) : ∀ i : Int, upFrom i (n + 1) = upFrom i n ++ [i + n] := by
  induction n with
  | zero => intro i; simp [upFrom]
  | succ n ih =>
    intro i
    rw [upFrom, ih (i + 1)]
    simp only [upFrom, List.cons_append, List.cons.injEq, true_and]
    congr 2
    push_cast
    omega

/-- The test `i % d == 0` on naturals is divisibility. -/
theorem tmod_natCast_eq_zero_iff (m d : Nat) : ((m : Int).tmod (d : Int) = 0) ↔ d ∣ m := by
  rw [← Int.ofNat_tmod]
  constructor
  · intro h
    exact Nat.dvd_of_mod_eq_zero (by exact_mod_cast h)
  · intro h
    exact_mod_cast Nat.mod_eq_zero_of_dvd h

/-- The multiples of `d` among `1, ..., n` are `n / d` in number. -/
theorem matchesFrom_one_length (d : Nat) (n : Nat) :
    (matchesFrom (d : Int) 1 n).length = n / d := by
  induction n with
  | zero => simp [matchesFrom, upFrom]
  | succ n ih =>
    unfold matchesFrom at ih ⊢
    rw [upFrom_succ_last, List.filter_append, List.length_append, ih, Nat.succ_div]
    have hc : (1 : Int) + (n : Int) = ((n + 1 : Nat) : Int) := by push_cast; omega
    by_cases h : d ∣ n + 1
    · have : ((1 : Int) + (n : Int)).tmod (d : Int) = 0 := by
        rw [hc]; exact (tmod_natCast_eq_zero_iff (n + 1) d).2 h
      simp [List.filter_cons, this, h]
    · have : ¬ ((1 : Int) + (n : Int)).tmod (d : Int) = 0 := by
        rw [hc]; exact fun hh => h ((tmod_natCast_eq_zero_iff (n + 1) d).1 hh)
      simp [List.filter_cons, this, h]

/-! ## Claims -/

/-- C1: for every pair of 32-bit signed integers `a` and `b`, `test a b` is the ordinary
minimum of `a` and `b`: it is `a` when `a < b` and `b` otherwise, and on a tie the returned
`b` equals `a`; the result is again a 32-bit signed integer. -/
theorem test_eq_min (a b : Int) (ha : isInt a) (hb : isInt b) :
    test a b = min a b ∧ (a < b → test a b = a) ∧ (¬ a < b → test a b = b) ∧
      (a = b → test a b = b ∧ test a b = a) ∧ isInt (test a b) := by
  unfold test
  refine ⟨?_, ?_, ?_, ?_, ?_⟩
  · by_cases h : a < b
    · rw [if_pos h, min_eq_left (le_of_lt h)]
    · rw [if_neg h, min_eq_right (not_lt.mp h)]
  · intro h; rw [if_pos h]
  · intro h; rw [if_neg h]
  · intro h; subst h; simp
  · by_cases h : a < b
    · rw [if_pos h]; exact ha
    · rw [if_neg h]; exact hb

/-- Witness for C1 at the two extreme `int` values. -/
theorem test_eq_min_witness :
    isInt (-2147483648) ∧ isInt 2147483647 ∧
      test (-2147483648) 2147483647 = min (-2147483648) 2147483647 :=
  ⟨by decide, by decide, (test_eq_min (-2147483648) 2147483647 (by decide) (by decide)).1⟩

/-- C2: for every range `[low, high]` of `int` bounds whose counter can be stepped past
`high`, and every positive divisor `d`, one reporting pass run with enough fuel returns, and
it appends one match line for each integer of a list `ms` that holds exactly the `i` with
`low ≤ i ≤ high` and `i % d == 0`, in strictly ascending order (so each once); the count it
leaves is the number of those lines, whatever the count was before the pass. -/
theorem reportingPass_reports_matches (low high d : Int) (s : State)
    (hd : 0 < d) (hlow : INT_MIN ≤ low) (hhigh : high < INT_MAX) :
    ∃ ms : List Int,
      (∀ i, i ∈ ms ↔ low ≤ i ∧ i ≤ high ∧ i.tmod d = 0) ∧
      ms.Pairwise (· < ·) ∧
      ∀ k, ∃ n, reportingPass low high d ((high + 1 - low).toNat + 1 + k) s =
        .ok (⟨ms.length, s.out ++ ms.map (matchLine d)⟩, n) := by
  refine ⟨matchesFrom d low (high + 1 - low).toNat, ?_, ?_, ?_⟩
  · intro i
    simp only [matchesFrom, List.mem_filter, mem_upFrom, decide_eq_true_eq]
    constructor
    · rintro ⟨⟨h1, h2⟩, h3⟩
      exact ⟨h1, by omega, h3⟩
    · rintro ⟨h1, h2, h3⟩
      exact ⟨⟨h1, by omega⟩, h3⟩
  · exact (upFrom_pairwise _ low).filter _
  · intro k
    exact ⟨_, reportingPass_run low high d s (ne_of_gt hd) hlow hhigh k⟩

/-- Witness for C2 on the range `[-4, 7]` with divisor 2, entered with a stale count. -/
theorem reportingPass_reports_matches_witness :
    ∃ ms : List Int,
      (∀ i, i ∈ ms ↔ -4 ≤ i ∧ i ≤ 7 ∧ i.tmod 2 = 0) ∧
      ms.Pairwise (· < ·) ∧
      ∀ k, ∃ n, reportingPass (-4) 7 2 ((7 + 1 - -4 : Int).toNat + 1 + k) ⟨5, ["x"]⟩ =
        .ok (⟨ms.length, ["x"] ++ ms.map (matchLine 2)⟩, n) :=
  reportingPass_reports_matches (-4) 7 2 ⟨5, ["x"]⟩ (by decide) (by decide) (by decide)

/-- C3: in the first pass of exercise_2.cpp (range [1,30], divisor 3) the match lines are
those for 3, 6, ..., 30, ten of them and in that order, written after the header line; the
count is then 10, and the summary line that follows prints 10. -/
theorem pass1_lines_and_count (k : Nat) :
    afterPass1 (31 + k) =
      .ok (⟨10, ["All numbers divisble by 3 within the interval [1,30]",
                 "3 is divisible by 3", "6 is divisible by 3", "9 is divisible by 3",
                 "12 is divisible by 3", "15 is divisible by 3", "18 is divisible by 3",
                 "21 is divisible by 3", "24 is divisible by 3", "27 is divisible by 3",
                 "30 is divisible by 3"]⟩, 30) ∧
    (exercise_2_main (101 + k)).map (fun r => (r.2.drop 11).head?) =
      .ok (some "At the end we have 10 numbers divisible by 3") := by
  refine ⟨afterPass1_run k, ?_⟩
  rw [exercise_2_main_run k]
  rfl

/-- C4: in the second pass of exercise_2.cpp (range [1,100], divisor 11) the match lines are
those for 11, 22, ..., 99, nine of them and in that order, written after the 13 lines that
precede the pass; the count, 10 after the first pass, is then 9, and the summary line that
follows prints 9. -/
theorem pass2_lines_and_count (k : Nat) :
    (afterPass1 (31 + k)).map (fun r => r.1.count) = .ok 10 ∧
    (afterPass2 (101 + k)).map (fun r => (r.1.count, r.1.out.length, r.1.out.drop 13)) =
      .ok (9, 22, ["11 is divisible by 11", "22 is divisible by 11", "33 is divisible by 11",
                   "44 is divisible by 11", "55 is divisible by 11", "66 is divisible by 11",
                   "77 is divisible by 11", "88 is divisible by 11", "99 is divisible by 11"]) ∧
    (exercise_2_main (101 + k)).map (fun r => (r.2.drop 22).head?) =
      .ok (some "At the end we have 9 numbers divisible by 11") := by
  refine ⟨?_, ?_, ?_⟩
  · rw [afterPass1_run k]; rfl
  · rw [afterPass2_run k]; rfl
  · rw [exercise_2_main_run k]; rfl

/-- C5: the value printed in the last line of exercise_2.cpp is 30 minus the count of the
second pass, which is 9: the line reads 21. -/
theorem final_line_value (k : Nat) :
    ∃ s n, afterPass2 (101 + k) = .ok (s, n) ∧ s.count = 9 ∧
      usub 30 s.count = 21 ∧ (usub 30 s.count : Int) = 30 - (s.count : Int) ∧
      (exercise_2_main (101 + k)).map (fun r => r.2.getLast?) = .ok (some (finalLine s.count)) ∧
      finalLine s.count = "And obviously we have 21 numbers not divisible by 3 within [1,30]" := by
  refine ⟨_, _, afterPass2_run k, rfl, by decide, by decide, ?_, by rfl⟩
  rw [exercise_2_main_run k]
  rfl

/-- C6, refuted as stated: no run of exercise_2.cpp writes exactly 22 lines. -/
theorem exercise_2_main_not_22_lines :
    ¬ ∃ fuel r, exercise_2_main fuel = .ok r ∧ r.2.length = 22 := by
  rintro ⟨fuel, r, h, hlen⟩
  rw [exercise_2_main_result fuel r h] at hlen
  revert hlen
  decide

/-- C6, amended: run with enough fuel, exercise_2.cpp returns 0 and writes exactly 24 lines,
in the order: the header of the first pass, 10 "is divisible by 3" lines, 1 summary line, the
header of the second pass, 9 "is divisible by 11" lines, 1 summary line, 1 final
derived-count line. -/
theorem exercise_2_main_output (k : Nat) :
    exercise_2_main (101 + k) =
      .ok (0, ["All numbers divisble by 3 within the interval [1,30]",
               "3 is divisible by 3", "6 is divisible by 3", "9 is divisible by 3",
               "12 is divisible by 3", "15 is divisible by 3", "18 is divisible by 3",
               "21 is divisible by 3", "24 is divisible by 3", "27 is divisible by 3",
               "30 is divisible by 3",
               "At the end we have 10 numbers divisible by 3",
               "All numbers divisble by 11 within the interval [1,100]",
               "11 is divisible by 11", "22 is divisible by 11", "33 is divisible by 11",
               "44 is divisible by 11", "55 is divisible by 11", "66 is divisible by 11",
               "77 is divisible by 11", "88 is divisible by 11", "99 is divisible by 11",
               "At the end we have 9 numbers divisible by 11",
               "And obviously we have 21 numbers not divisible by 3 within [1,30]"]) ∧
    (exercise_2_main (101 + k)).map (fun r => r.2.length) = .ok 24 := by
  rw [exercise_2_main_run k]
  exact ⟨rfl, rfl⟩

/-- C7: `test 1 2 = 1` and `test 1 4 = 1`, and these are the two calls of `main` in
exercise_1.cpp, whose results are `u` and `v`. -/
theorem test_demo_calls :
    test 1 2 = 1 ∧ test 1 4 = 1 ∧
      exercise_1_main.u = test 1 2 ∧ exercise_1_main.v = test 1 4 ∧
      exercise_1_main.u = 1 ∧ exercise_1_main.v = 1 := by
  decide

/-- C8: 20 integers of [1,30] are not divisible by 3; the last line of exercise_2.cpp prints
30 minus the count of the second pass, which is 21 and not 20; 30 minus the count of the
first pass is 20, and 10 is the only count whose difference from 30 is 20. -/
theorem final_line_not_complement_count (k : Nat) :
    ((upFrom 1 30).filter (fun i => i.tmod 3 ≠ 0)).length = 20 ∧
    ∃ s1 n1 s2 n2, afterPass1 (31 + k) = .ok (s1, n1) ∧ afterPass2 (101 + k) = .ok (s2, n2) ∧
      usub 30 s2.count = 21 ∧ usub 30 s2.count ≠ 20 ∧ usub 30 s1.count = 20 ∧
      (exercise_2_main (101 + k)).map (fun r => r.2.getLast?) =
        .ok (some "And obviously we have 21 numbers not divisible by 3 within [1,30]") ∧
      ∀ c, (c < UINT_MOD ∧ usub 30 c = 20) ↔ c = 10 := by
  refine ⟨by decide, _, _, _, _, afterPass1_run k, afterPass2_run k, by decide, by decide,
    by decide, ?_, ?_⟩
  · rw [exercise_2_main_run k]; rfl
  · intro c
    unfold usub UINT_MOD
    omega

/-- C10: both loops of exercise_2.cpp end: with enough fuel the first runs its body 30 times,
the second 100 times, and `main` then returns 0; and a pass over `[low, high]`, for `int`
bounds whose counter can be stepped past `high` and a positive divisor, ends after
`max(0, high - low + 1)` runs of its body. -/
theorem passes_terminate (low high d : Int) (s : State)
    (hd : 0 < d) (hlow : INT_MIN ≤ low) (hhigh : high < INT_MAX) :
    (∀ k, ∃ st, afterPass1 (31 + k) = .ok (st, 30)) ∧
    (∀ k, ∃ st, afterPass2 (101 + k) = .ok (st, 100)) ∧
    (∀ k, ∃ out, exercise_2_main (101 + k) = .ok (0, out)) ∧
    (∀ k, ∃ st, reportingPass low high d ((max 0 (high - low + 1)).toNat + 1 + k) s =
      .ok (st, (max 0 (high - low + 1)).toNat)) := by
  refine ⟨fun k => ⟨_, afterPass1_run k⟩, fun k => ⟨_, afterPass2_run k⟩,
    fun k => ⟨_, exercise_2_main_run k⟩, fun k => ?_⟩
  have hN : (max 0 (high - low + 1)).toNat = (high + 1 - low).toNat := by omega
  rw [hN]
  exact ⟨_, reportingPass_run low high d s (ne_of_gt hd) hlow hhigh k⟩

/-- Witness for C10 on the range `[2, 9]` with divisor 4: eight runs of the body. -/
theorem passes_terminate_witness :
    (∀ k, ∃ st, afterPass1 (31 + k) = .ok (st, 30)) ∧
    (∀ k, ∃ st, afterPass2 (101 + k) = .ok (st, 100)) ∧
    (∀ k, ∃ out, exercise_2_main (101 + k) = .ok (0, out)) ∧
    (∀ k, ∃ st, reportingPass 2 9 4 ((max 0 (9 - 2 + 1 : Int)).toNat + 1 + k) ⟨0, []⟩ =
      .ok (st, (max 0 (9 - 2 + 1 : Int)).toNat)) :=
  passes_terminate 2 9 4 ⟨0, []⟩ (by decide) (by decide) (by decide)

/-- C11: for every `n ≥ 0` that an `int` counter can be stepped past and every positive
divisor `d`, a reporting pass over `[1, n]` run with enough fuel returns with the count equal
to the floor quotient `n / d`; for the two passes of exercise_2.cpp this is `30 / 3 = 10` and
`100 / 11 = 9`. -/
theorem pass_count_eq_quotient (n d : Int) (s : State)
    (hn : 0 ≤ n) (hmax : n < INT_MAX) (hd : 0 < d) :
    (∀ k, ∃ st iters, reportingPass 1 n d (n.toNat + 1 + k) s = .ok (st, iters) ∧
      (st.count : Int) = n / d) ∧
    (∀ k, ∃ st iters, afterPass1 (31 + k) = .ok (st, iters) ∧
      st.count = 30 / 3 ∧ st.count = 10) ∧
    (∀ k, ∃ st iters, afterPass2 (101 + k) = .ok (st, iters) ∧
      st.count = 100 / 11 ∧ st.count = 9) := by
  refine ⟨fun k => ?_, fun k => ⟨_, _, afterPass1_run k, rfl, rfl⟩,
    fun k => ⟨_, _, afterPass2_run k, rfl, rfl⟩⟩
  have h := reportingPass_run 1 n d s (ne_of_gt hd) (by decide) hmax k
  rw [show n + 1 - 1 = n by omega] at h
  refine ⟨_, _, h, ?_⟩
  lift n to Nat using hn
  lift d to Nat using le_of_lt hd
  simp only [Int.toNat_ofNat, matchesFrom_one_length]
  exact Int.ofNat_ediv n d

/-- Witness for C11 on the range `[1, 17]` with divisor 5. -/
theorem pass_count_eq_quotient_witness :
    (∀ k, ∃ st iters, reportingPass 1 17 5 ((17 : Int).toNat + 1 + k) ⟨3, []⟩ = .ok (st, iters) ∧
      (st.count : Int) = 17 / 5) ∧
    (∀ k, ∃ st iters, afterPass1 (31 + k) = .ok (st, iters) ∧
      st.count = 30 / 3 ∧ st.count = 10) ∧
    (∀ k, ∃ st iters, afterPass2 (101 + k) = .ok (st, iters) ∧
      st.count = 100 / 11 ∧ st.count = 9) :=
  pass_count_eq_quotient 17 5 ⟨3, []⟩ (by decide) (by decide) (by decide)

/-- C12: the `30 - count` of the last line of exercise_2.cpp is an `unsigned int`
subtraction that does not wrap: the count of the second pass, whose loop ran 100 times, is at
most 30, so the value modulo `2^32` is the mathematical difference `30 - count`; the
subtraction is exact for the counts up to 30 and for no other. -/
theorem final_subtraction_no_wrap (k : Nat) :
    ∃ s n, afterPass2 (101 + k) = .ok (s, n) ∧ n = 100 ∧ s.count ≤ 30 ∧
      usub 30 s.count = (30 + 2 ^ 32 - s.count) % 2 ^ 32 ∧
      (usub 30 s.count : Int) = 30 - (s.count : Int) ∧
      ∀ c, (c < UINT_MOD ∧ (usub 30 c : Int) = 30 - (c : Int)) ↔ c ≤ 30 := by
  refine ⟨_, _, afterPass2_run k, rfl, by decide, by decide, by decide, ?_⟩
  intro c
  unfold usub UINT_MOD
  omega

/-- C13: `test` is commutative: `test a b = test b a` for all integers `a` and `b`, the tie
`a = b` included. -/
theorem test_comm (a b : Int) : test a b = test b a := by
  unfold test
  split_ifs <;> omega

end Chapter1
